import Mathlib

/-!
Verification of the example page component `Exception` from
`docs/src/pages/ex2/0x0.tsx`:

  (the module first imports `Translate` from the Docusaurus translation
  provider and `Layout` from the theme, its only two dependencies)

  export default function Exception() {
    return (
      <Layout title="Exception" description="Explain the Exception exception">
        <Translate description="Exception description">
          An example of an translate.
        </Translate>
      </Layout>
    )
  }

We embed the JSX source as a small expression language `Expr`, give it the
standard JSX compilation semantics (Babel text-literal cleaning, dropping of
whitespace-only text children, `createElement`-style element construction)
as `eval`, and reason about the produced element tree `Node`.
-/

/-- Page metadata carried by the `Layout` element: its `title` and
`description` props. -/
structure PageMetadata where
  title : String
  description : String
deriving DecidableEq, Repr

/-- A translatable message carried by the `Translate` element: the source
`text` (its cleaned JSX text child) and the translator-facing `description`
prop. -/
structure TranslatableMessage where
  text : String
  description : String
deriving DecidableEq, Repr

/-- A node of the element tree the component returns: a `Layout` element
with children, a `Translate` element, or a bare text node. -/
inductive Node where
  | layout (meta : PageMetadata) (children : List Node)
  | translate (msg : TranslatableMessage)
  | text (s : String)

/-- The JSX expression language the component body is written in.  `cond`
and `throwErr` are present so that absence of branching and of failure
paths in the actual source is expressible. -/
inductive Expr where
  | elem (tag : String) (props : List (String × String)) (children : List Expr)
  | jsxtext (raw : String)
  | cond (c : Bool) (t e : Expr)
  | throwErr (msg : String)

/-- Split a character list into its lines at newline characters. -/
def splitLines : List Char → List (List Char)
  | [] => [[]]
  | c :: cs =>
    if c = '\n' then [] :: splitLines cs
    else
      match splitLines cs with
      | [] => [[c]]
      | l :: ls => (c :: l) :: ls

/-- Babel's cleaning of a JSX text literal (`cleanJSXElementLiteralChild`),
on the character list of the literal: split into lines, replace tabs by
spaces, strip leading whitespace of every line but the first and trailing
whitespace of every line but the last, drop lines that become empty, and
append a single space to every surviving line except the last one that has
content. -/
def jsxTextChars (cs : List Char) : List Char :=
  let lines := (splitLines cs).map (List.map fun c => if c = '\t' then ' ' else c)
  let n := lines.length
  let lastContent := lines.enum.foldl
    (fun acc p => if p.2.any (· ≠ ' ') then p.1 else acc) 0
  let pieces := lines.enum.map fun p =>
    let l := if p.1 ≠ 0 then p.2.dropWhile (· = ' ') else p.2
    let l := if p.1 ≠ n - 1 then (l.reverse.dropWhile (· = ' ')).reverse else l
    if l = [] then [] else if p.1 ≠ lastContent then l ++ [' '] else l
  pieces.flatten

/-- Babel's cleaning of a JSX text literal, as a `String` function. -/
def jsxText (s : String) : String :=
  String.mk (jsxTextChars s.toList)

/-- `true` when a JSX text child survives compilation: text that cleans to
the empty string (indentation between elements) is dropped by the JSX
transform. -/
def keepChild : Expr → Bool
  | .jsxtext raw => jsxText raw ≠ ""
  | _ => true

/-- JSX compilation semantics for the two element types the page uses,
with a recursion-depth fuel so the evaluator is structurally recursive.
`Layout` needs `title` and `description` props; `Translate` needs a
`description` prop and exactly one static text child (Docusaurus requires
the child of `Translate` to be a static string).  Anything else fails. -/
def evalF : Nat → Expr → Except String Node
  | 0, _ => .error "nesting too deep"
  | _ + 1, .jsxtext raw => .ok (.text (jsxText raw))
  | f + 1, .cond c t e => if c then evalF f t else evalF f e
  | _ + 1, .throwErr m => .error m
  | f + 1, .elem tag props children =>
    if tag = "Layout" then
      match props.lookup "title", props.lookup "description" with
      | some t, some d => do
        let cs ← (children.filter keepChild).mapM (evalF f)
        pure (.layout ⟨t, d⟩ cs)
      | _, _ => .error "Layout needs title and description props"
    else if tag = "Translate" then
      match props.lookup "description", children with
      | some d, [.jsxtext raw] => .ok (.translate ⟨jsxText raw, d⟩)
      | _, _ => .error "Translate needs a description prop and one static text child"
    else .error ("unsupported element " ++ tag)

/-- Evaluate a JSX expression; the fuel bound exceeds any nesting depth
occurring in the page source. -/
def eval (e : Expr) : Except String Node :=
  evalF 100 e

/-- The body of `Exception` transliterated from the source, raw JSX text
(with its real newlines and indentation) included verbatim. -/
def Exception_expr : Expr :=
  .elem "Layout"
    [("title", "Exception"), ("description", "Explain the Exception exception")]
    [ .jsxtext "\n      ",
      .elem "Translate" [("description", "Exception description")]
        [.jsxtext "\n        An example of an translate.\n      "],
      .jsxtext "\n    " ]

/-- The element tree a render of `Exception` returns. -/
def Exception : Node :=
  ((eval Exception_expr).toOption).getD (.text "")

/-- A node of the host-rendered tree: a page shell produced by the layout
provider around rendered children, or rendered text. -/
inductive RNode where
  | shell (meta : PageMetadata) (children : List RNode)
  | rtext (s : String)

/-- Host rendering of an element tree with a translation provider `tp`:
the layout element becomes the provider's page shell around its rendered
children, the translation element becomes the display string the
translation provider returns for its message, and text passes through.
The fuel argument makes the recursion structural; it exceeds any nesting
depth occurring in the page. -/
def renderF (tp : TranslatableMessage → String) : Nat → Node → RNode
  | 0, _ => .rtext ""
  | f + 1, .layout m cs => .shell m (cs.map (renderF tp f))
  | _ + 1, .translate msg => .rtext (tp msg)
  | _ + 1, .text s => .rtext s

/-- Host rendering of an element tree with translation provider `tp`. -/
def render (tp : TranslatableMessage → String) (t : Node) : RNode :=
  renderF tp 100 t

/-- The characters of all text content of a rendered tree, in order. -/
def renderedTextF : Nat → RNode → List Char
  | 0, _ => []
  | f + 1, .shell _ cs => (cs.map (renderedTextF f)).flatten
  | _ + 1, .rtext s => s.toList

/-- All text content of a rendered tree, concatenated in order. -/
def renderedText (r : RNode) : String :=
  String.mk (renderedTextF 100 r)

/-- The configurations passed to the layout provider, in order, when the
host renders a tree: one call per layout element. -/
def layoutCallsF : Nat → Node → List PageMetadata
  | 0, _ => []
  | f + 1, .layout m cs => m :: (cs.map (layoutCallsF f)).flatten
  | _ + 1, .translate _ => []
  | _ + 1, .text _ => []

/-- The configurations the layout provider receives during one render. -/
def layoutCalls (t : Node) : List PageMetadata :=
  layoutCallsF 100 t

/-- The messages passed to the translation provider, in order, when the
host renders a tree: one call per translation element. -/
def translateCallsF : Nat → Node → List TranslatableMessage
  | 0, _ => []
  | f + 1, .layout _ cs => (cs.map (translateCallsF f)).flatten
  | _ + 1, .translate msg => [msg]
  | _ + 1, .text _ => []

/-- The messages the translation provider receives during one render. -/
def translateCalls (t : Node) : List TranslatableMessage :=
  translateCallsF 100 t

/-- Generic interpretation of an element tree over an arbitrary layout
provider `L`, translation provider `T`, and text embedding `X`; `none`
only when the fuel is exhausted. -/
def interpF {α : Type} (L : PageMetadata → List α → α)
    (T : TranslatableMessage → α) (X : String → α) : Nat → Node → Option α
  | 0, _ => none
  | f + 1, .layout m cs => do
    let rs ← cs.mapM (interpF L T X f)
    pure (L m rs)
  | _ + 1, .translate msg => pure (T msg)
  | _ + 1, .text s => pure (X s)

/-- Generic interpretation of an element tree over providers `L`, `T` and
text embedding `X`. -/
def interp {α : Type} (L : PageMetadata → List α → α)
    (T : TranslatableMessage → α) (X : String → α) (t : Node) : Option α :=
  interpF L T X 100 t

/-- The bare text nodes of an element tree, in order: text that sits
outside every translation element (the source text of a translation
element is not a bare text node). -/
def textNodesF : Nat → Node → List String
  | 0, _ => []
  | f + 1, .layout _ cs => (cs.map (textNodesF f)).flatten
  | _ + 1, .translate _ => []
  | _ + 1, .text s => [s]

/-- The bare (untranslated) text nodes of an element tree. -/
def textNodes (t : Node) : List String :=
  textNodesF 100 t

/-- The children of the outermost layout element of a tree. -/
def layoutChildren : Node → List Node
  | .layout _ cs => cs
  | .translate _ => []
  | .text _ => []

/-- The body of `Exception` is a single `return` of a JSX literal: it takes
no parameters, reads no props, state, context, or other external state, and
performs no effectful operation.  Under a state-passing embedding of the
host's invocation, the host state therefore threads through unchanged and
the returned tree does not depend on it. -/
def Exception_render {σ : Type} (s : σ) : Node × σ :=
  (Exception, s)

/-- `true` when a JSX expression is straight-line: no conditional and no
throw anywhere in it. -/
def straightLineF : Nat → Expr → Bool
  | 0, _ => false
  | f + 1, .elem _ _ cs => cs.all (straightLineF f)
  | _ + 1, .jsxtext _ => true
  | _ + 1, .cond _ _ _ => false
  | _ + 1, .throwErr _ => false

/-- `true` when a JSX expression contains no conditional and no throw. -/
def straightLine (e : Expr) : Bool :=
  straightLineF 100 e

/-- An exported function of a module: its canonical name and its number of
parameters. -/
structure ExportedFunction where
  name : String
  paramCount : Nat
deriving DecidableEq, Repr

/-- The export surface of a module: its default export, when present, and
the names of its named exports. -/
structure ModuleExports where
  defaultExport : Option ExportedFunction
  namedExports : List String
deriving DecidableEq, Repr

/-- The export surface of `docs/src/pages/ex2/0x0.tsx`: the module's only
export is `export default function Exception()`, a zero-parameter default
export, and it has no named export. -/
def ex2_0x0_exports : ModuleExports :=
  ⟨some ⟨"Exception", 0⟩, []⟩

/-- The export rule of the repository's TypeScript style guide (section
"Exports": "Only named exports must be used."): a module follows it exactly
when it has no default export. -/
def namedExportsOnly (m : ModuleExports) : Bool :=
  m.defaultExport.isNone

/-- The layout configuration literal of the page source. -/
def pageMeta : PageMetadata :=
  ⟨"Exception", "Explain the Exception exception"⟩

/-- The translatable message of the page source: the cleaned text child of
`Translate` and its `description` prop. -/
def pageMsg : TranslatableMessage :=
  ⟨"An example of an translate.", "Exception description"⟩

/-- C1: every render of the page passes the layout provider exactly the
configuration with title `Exception` and description
`Explain the Exception exception`, and a single render invokes the layout
provider exactly once, with that literal configuration. -/
theorem layout_config_exact :
    layoutCalls Exception = [⟨"Exception", "Explain the Exception exception"⟩] :=
  rfl

/-- C2: every render of the page passes the translation provider exactly
the message whose source text is `An example of an translate.` and whose
translator-facing description is `Exception description`, both literal. -/
theorem translate_message_exact :
    translateCalls Exception = [⟨"An example of an translate.", "Exception description"⟩] :=
  rfl

/-- C3: the render tree of the page is exactly two nested elements: an
outer layout element carrying the fixed title and description, directly
containing one inner translation element, and nothing else at either
level. -/
theorem render_tree_shape :
    Exception = Node.layout ⟨"Exception", "Explain the Exception exception"⟩
      [Node.translate ⟨"An example of an translate.", "Exception description"⟩] :=
  rfl

/-- C4: with an identity translation provider (one returning the source
text unchanged), the rendered text content is exactly
`An example of an translate.` — the JSX whitespace and newlines that
surround the text in the source do not appear in it. -/
theorem identity_translation_text :
    renderedText (render (fun m => m.text) Exception) = "An example of an translate." :=
  rfl

/-- C5: rendering the page is deterministic and idempotent: invocations
from any two host states produce structurally identical trees, and in
particular a second invocation right after a first (no intervening state
change) produces the same tree again. -/
theorem render_deterministic_idempotent {σ : Type} (s t : σ) :
    (Exception_render s).1 = (Exception_render t).1 ∧
    (Exception_render ((Exception_render s).2)).1 = (Exception_render s).1 :=
  ⟨rfl, rfl⟩

/-- C6: rendering the page is total: its body is straight-line JSX with no
conditional and no throw, and its evaluation returns the render tree on
the success branch, never a failure value. -/
theorem render_total_no_branch :
    eval Exception_expr = Except.ok Exception ∧ straightLine Exception_expr = true :=
  ⟨rfl, rfl⟩

/-- C7: rendering the page has no side effect beyond producing the tree:
the host state is returned unchanged, the produced tree does not depend on
that state, and the page-metadata and translatable-message values occurring
in the render are exactly the two constant literals of the source, once
each per render pass. -/
theorem render_no_side_effects {σ : Type} (s : σ) :
    (Exception_render s).2 = s ∧
    (Exception_render s).1 = Exception ∧
    layoutCalls (Exception_render s).1 = [pageMeta] ∧
    translateCalls (Exception_render s).1 = [pageMsg] :=
  ⟨rfl, rfl, rfl, rfl⟩

/-- C8: the page depends on exactly the two external collaborators: for
every layout provider `L`, translation provider `T`, and bare-text
embedding `X`, its interpretation is `L` applied to the literal metadata
and to the one-element list holding `T` applied to the literal message —
a composition of only the two providers on string literals, with `X`
(or any other collaborator) never used. -/
theorem depends_only_on_providers {α : Type} (L : PageMetadata → List α → α)
    (T : TranslatableMessage → α) (X : String → α) :
    interp L T X Exception = some (L pageMeta [T pageMsg]) :=
  rfl

/-- C9: the module's only export is a default export, the zero-parameter
function `Exception`; it has no named export, so it does not follow the
style guide's rule that only named exports be used. -/
theorem default_export_violates_style_guide :
    ex2_0x0_exports.defaultExport = some ⟨"Exception", 0⟩ ∧
    ex2_0x0_exports.namedExports = [] ∧
    namedExportsOnly ex2_0x0_exports = false :=
  ⟨rfl, rfl, rfl⟩

/-- C10: every user-visible text node lies inside the translation element:
the layout element's children are exactly the single translation element,
and the tree contains no bare (untranslated) text node anywhere. -/
theorem all_text_inside_translate :
    layoutChildren Exception = [Node.translate ⟨"An example of an translate.", "Exception description"⟩] ∧
    textNodes Exception = [] :=
  ⟨rfl, rfl⟩

/-- Witness for C5 at a concrete host state type. -/
theorem render_deterministic_idempotent_witness :
    (Exception_render (0 : Nat)).1 = (Exception_render (1 : Nat)).1 ∧
    (Exception_render ((Exception_render (0 : Nat)).2)).1 = (Exception_render (0 : Nat)).1 :=
  render_deterministic_idempotent 0 1

/-- Witness for C7 at a concrete host state. -/
theorem render_no_side_effects_witness :
    (Exception_render (0 : Nat)).2 = 0 ∧
    (Exception_render (0 : Nat)).1 = Exception ∧
    layoutCalls (Exception_render (0 : Nat)).1 = [pageMeta] ∧
    translateCalls (Exception_render (0 : Nat)).1 = [pageMsg] :=
  render_no_side_effects 0

/-- Witness for C8 at concrete providers: the element constructors
themselves. -/
theorem depends_only_on_providers_witness :
    interp Node.layout Node.translate Node.text Exception =
      some (Node.layout pageMeta [Node.translate pageMsg]) :=
  depends_only_on_providers Node.layout Node.translate Node.text
